import Mathlib

/-!
Verification development for the WastingTimeBlocker repository.

Shallow embedding conventions:
* Instants are modelled as integer minutes since an (arbitrary) Monday 00:00
  reference epoch, so that the weekday of an instant t is (t / 1440) % 7 with
  Monday = 0, matching Python's datetime.weekday().  Lean's Int division and
  modulus are floor-division / nonnegative-remainder, the same as Python's.
* Python str values are modelled as List Char; the Python string primitives
  used by the source (find, slicing, replace, strip, split, lower) are
  reimplemented below with Python's exact semantics (negative indices,
  find returning -1, split of the empty string giving [""], ...).
* External libraries (BeautifulSoup's get_text, dateutil's rrule, the ics
  grammar, requests) are abstracted as explicit function parameters.
-/

namespace WTB

/-! ## Python string primitives (models of the str methods the source uses) -/

/-- Model of Python str.find scanning: first index at or after the counter
where the needle is a prefix of the remaining text. -/
def pyFindAux (needle : List Char) : List Char → Nat → Option Nat
  | [], i => if needle.isPrefixOf ([] : List Char) then some i else none
  | c :: rest, i =>
    if needle.isPrefixOf (c :: rest) then some i
    else pyFindAux needle rest (i + 1)

/-- Model of Python hay.find(needle, start) for a non-empty needle: returns the
first character index of the needle at or after start, or -1.  A negative
start is normalised the Python way (start + len, clamped at 0). -/
def pyFind (hay needle : List Char) (start : Int) : Int :=
  let st : Nat :=
    if start < 0 then (max (start + (hay.length : Int)) 0).toNat else start.toNat
  match pyFindAux needle (hay.drop st) st with
  | some i => (i : Int)
  | none => -1

/-- Normalisation of one Python slice bound against a length: negative bounds
count from the end (clamped at 0), bounds past the end are clamped to it. -/
def pySliceIdx (len : Nat) (i : Int) : Nat :=
  if i < 0 then (max (i + (len : Int)) 0).toNat else min i.toNat len

/-- Model of Python s[a:b]. -/
def pySlice (s : List Char) (a b : Int) : List Char :=
  (s.take (pySliceIdx s.length b)).drop (pySliceIdx s.length a)

/-- Worker for pyReplace, structurally recursive on a fuel counter so that it
reduces inside the kernel; one unit of fuel is spent per character position,
so fuel equal to the length of the text is always enough. -/
def pyReplaceGo (old new : List Char) : Nat → List Char → List Char
  | _, [] => []
  | 0, s => s
  | fuel + 1, c :: rest =>
    if old ≠ [] ∧ old.isPrefixOf (c :: rest) then
      new ++ pyReplaceGo old new fuel (rest.drop (old.length - 1))
    else
      c :: pyReplaceGo old new fuel rest

/-- Model of Python s.replace(old, new): replaces every non-overlapping
occurrence, scanning left to right.  (Python's replace with an empty old
inserts new everywhere; the source only replaces non-empty tokens, and this
model treats an empty old as matching nowhere.) -/
def pyReplace (old new s : List Char) : List Char :=
  pyReplaceGo old new s.length s

/-- Whitespace recognised by Python str.strip() with no argument. -/
def pyIsSpace (c : Char) : Bool :=
  c = ' ' ∨ c = '\t' ∨ c = '\n' ∨ c = '\r' ∨ c = '\x0b' ∨ c = '\x0c'

/-- Model of Python s.strip(). -/
def pyStrip (s : List Char) : List Char :=
  ((s.dropWhile pyIsSpace).reverse.dropWhile pyIsSpace).reverse

/-- Worker for pySplit: accumulates the current field in reverse, structurally
recursive on a fuel counter (one unit per character position). -/
def pySplitGo (sep : List Char) : Nat → List Char → List Char → List (List Char)
  | _, [], acc => [acc.reverse]
  | 0, s, acc => [acc.reverse ++ s]
  | fuel + 1, c :: rest, acc =>
    if sep ≠ [] ∧ sep.isPrefixOf (c :: rest) then
      acc.reverse :: pySplitGo sep fuel (rest.drop (sep.length - 1)) []
    else
      pySplitGo sep fuel rest (c :: acc)

/-- Model of Python s.split(sep) for a non-empty separator; in particular
the split of the empty string is [""] (one empty field), never []. -/
def pySplit (sep s : List Char) : List (List Char) :=
  pySplitGo sep s.length s []

/-- Model of Python s.lower() (ASCII case folding; every string the source
compares against is ASCII). -/
def pyLower (s : List Char) : List Char :=
  s.map Char.toLower

/-! ## BlockingApps/task.py : Blocked_Info, Task, directive extraction -/

/-- Mirror of the Blocked_Info TypedDict: a dict with exactly the two keys
block_apps and block_websites (so, as a Python dict, it is never empty and
always truthy). -/
structure Blocked_Info where
  block_apps : List String
  block_websites : List String
deriving DecidableEq

/-- Marker token delimiting the blocking section of a description. -/
def markerTok : List Char := "##blocking".data

/-- Key introducing the list of applications to block. -/
def appsKey : List Char := "block_apps:".data

/-- Key introducing the list of websites to block. -/
def websKey : List Char := "block_websites:".data

/-- Literal "<br>". -/
def brTag : List Char := "<br>".data

/-- Literal backslash-n (two characters, the Python source string "\\n"). -/
def escNewline : List Char := "\\n".data

/-- Literal carriage return. -/
def crTok : List Char := "\r".data

/-- Literal single backslash. -/
def backslashTok : List Char := "\\".data

/-- Literal single space. -/
def spaceTok : List Char := " ".data

/-- Mirror of Task._clean_description: BeautifulSoup(text).get_text() -- the
external HTML stripper, abstracted as the parameter getText -- followed by the
four replace calls of the source, in source order. -/
def clean_description (getText : String → String) (text : String) : List Char :=
  pyReplace backslashTok spaceTok
    (pyReplace escNewline spaceTok
      (pyReplace crTok []
        (pyReplace brTag escNewline (getText text).data)))

/-- Extraction of one key's comma-separated value: mirror of the source's
slice-replace-replace-strip-split-strip-lower chain, shared by the apps and
the websites keys (they differ only in the slice bounds supplied). -/
def extract_field (key : List Char) (lo hi : Int) (important : List Char) :
    List String :=
  (pySplit [','] (pyStrip (pyReplace [';'] [] (pyReplace key []
    (pySlice important lo hi))))).map
      (fun t => (pyLower (pyStrip t)).asString)

/-- Mirror of the apps extraction in Task.extract_blocking_info: the slice runs
from the position of the apps key to the position of the FIRST semicolon of
the whole blocking section (the find for the semicolon starts at index 0). -/
def apps_of (important : List Char) : List String :=
  extract_field appsKey (pyFind important appsKey 0) (pyFind important [';'] 0)
    important

/-- Mirror of the websites extraction in Task.extract_blocking_info: the slice
runs from the position of the websites key to the position of the first
semicolon AT OR AFTER that key (the find for the semicolon starts at
first_index, not at 0). -/
def webs_of (important : List Char) : List String :=
  let first_index := pyFind important websKey 0
  extract_field websKey first_index (pyFind important [';'] first_index)
    important

/-- Mirror of the try-block of Task.extract_blocking_info on the cleaned and
lowercased description; none models the raise of ValueError when the blocking
section is empty (the only statement in the try-block that can raise: find,
slicing, replace, strip, split and lower are total in Python). -/
def extract_body (d : List Char) : Option Blocked_Info :=
  let begin_index := pyFind d markerTok 0
  let end_index := pyFind d markerTok (begin_index + 1)
  let important := pyStrip (pyReplace markerTok [] (pySlice d begin_index end_index))
  if important = [] then none
  else some ⟨apps_of important, webs_of important⟩

/-- Noted value of the empty directive returned by the bare except clause. -/
def emptyInfo : Blocked_Info := ⟨[], []⟩

/-- Mirror of Task.extract_blocking_info: clean, lowercase, run the try-block;
the bare except turns any failure into the empty directive. -/
def extract_blocking_info (getText : String → String) (desc : String) :
    Blocked_Info :=
  match extract_body (pyLower (clean_description getText desc)) with
  | some info => info
  | none => emptyInfo

/-- Mirror of the Task class: title, start, end, description, optional
recurrence rule, and the blocking directive computed once at construction.
Instants are integer minutes; astimezone does not change the instant an
aware datetime denotes, so it is the identity in this model. -/
structure Task where
  title : String
  start_time : Int
  end_time : Int
  description : String
  repetition : Option String
  blocking_info : Blocked_Info
deriving DecidableEq

/-- Mirror of Task.__init__: the directive is extracted from the description
at construction time. -/
def mk_task (getText : String → String) (title : String)
    (start_time end_time : Int) (description : String)
    (repetition : Option String) : Task :=
  ⟨title, start_time, end_time, description, repetition,
    extract_blocking_info getText description⟩

/-- Mirror of Task.is_active: start_time <= now <= end_time. -/
def Task.is_active (t : Task) (now : Int) : Bool :=
  decide (t.start_time ≤ now) && decide (now ≤ t.end_time)

/-- Mirror of Task.does_block_anything: both lists non-empty (logical and). -/
def Task.does_block_anything (t : Task) : Bool :=
  decide (t.blocking_info.block_apps ≠ []) &&
    decide (t.blocking_info.block_websites ≠ [])

/-! ## main.py : scheduler loop

Python Task objects have no custom __eq__, so the comparison
active_task != current_task in main is object identity.  The registry built
by the parser holds pairwise distinct objects, so an object is modelled by
its index in the registry list; the loop state current_task is an
Option Nat (None or the index of the tracked occurrence). -/

/-- Mirror of get_active_task: the first task of the list that is active now
and blocks anything, as an object (index); None when there is none. -/
def get_active_task (now : Int) (tasks : List Task) : Option Nat :=
  tasks.findIdx? fun t => t.is_active now && t.does_block_anything

/-- Commands issued to the Blocker (the enforcement boundary); a run of the
loop is abstracted by the list of commands it emits, in order. -/
inductive Ev where
  | blockApps (apps : List String)
  | blockWebsites (websites : List String)
  | unblockWebsites (websites : List String)
deriving DecidableEq

/-- Mirror of unblock_all_tasks: one unblock_websites call per task of the
registry, in registry order. -/
def unblock_all_tasks (tasks : List Task) : List Ev :=
  tasks.map fun t => Ev.unblockWebsites t.blocking_info.block_websites

/-- Placeholder for total indexing; every index the loop stores comes from
get_active_task and is in range, so the placeholder is never reached on the
runs the theorems talk about. -/
def defaultTask : Task := ⟨"", 0, 0, "", none, emptyInfo⟩

/-- Mirror of one iteration of the while body of main (without the sleep):
the commands it emits and the new current_task.  Notes kept from the source:
the guard active_task tests Python truthiness (a Task object is always
truthy, None is falsy); active_task != current_task is object identity; the
inner guard if active_task.blocking_info is a dict-truthiness test on a
two-key dict, hence always true. -/
def tick (tasks : List Task) (current : Option Nat) (now : Int) :
    List Ev × Option Nat :=
  let active := get_active_task now tasks
  if active.isSome && decide (active ≠ current) then
    let t := tasks.getD (active.getD 0) defaultTask
    ([Ev.blockApps t.blocking_info.block_apps,
      Ev.blockWebsites t.blocking_info.block_websites], active)
  else
    match current with
    | some j =>
      let t := tasks.getD j defaultTask
      if t.is_active now then
        ([Ev.blockApps t.blocking_info.block_apps], current)
      else
        ([Ev.unblockWebsites t.blocking_info.block_websites], none)
    | none => ([], none)

/-- Input for one iteration: the current instant, and an optional fault
injected into the body at that iteration.  A fault (n, isExc) models an
exception raised after the body emitted its first n commands; isExc records
whether the exception is an instance of Exception (true) or only of
BaseException, such as KeyboardInterrupt or SystemExit (false) -- the
distinction the except Exception clause of main observes. -/
structure Tick_In where
  now : Int
  fault : Option (Nat × Bool)
deriving DecidableEq

/-- How the while loop ended: the RUNNING flag observed false, or an
exception escaped the body. -/
inductive TermKind where
  | graceful
  | faulted (isExceptionClass : Bool)
deriving DecidableEq

/-- Mirror of the while RUNNING loop of main: consumes the tick inputs in
order (an exhausted list models RUNNING having become false), accumulating
the emitted commands; a fault cuts the faulting iteration's commands at the
raise point and ends the loop. -/
def run_loop (tasks : List Task) : Option Nat → List Tick_In → List Ev × TermKind
  | _, [] => ([], .graceful)
  | current, ti :: rest =>
    let out := tick tasks current ti.now
    match ti.fault with
    | none =>
      let rec_out := run_loop tasks out.2 rest
      (out.1 ++ rec_out.1, rec_out.2)
    | some f => (out.1.take f.1, .faulted f.2)

/-- Mirror of the try/except of main: after a graceful loop exit
unblock_all_tasks runs; except Exception also runs it for exceptions that are
instances of Exception; an exception deriving only from BaseException
(KeyboardInterrupt, SystemExit) is not caught, so main propagates it with no
cleanup. -/
def main_trace (tasks : List Task) (ticks : List Tick_In) : List Ev :=
  match run_loop tasks none ticks with
  | (evs, .graceful) => evs ++ unblock_all_tasks tasks
  | (evs, .faulted true) => evs ++ unblock_all_tasks tasks
  | (evs, .faulted false) => evs

/-- Model of Python == on two Task objects (no __eq__ defined on the class,
so equality is object identity): an object is an identity paired with the
field record, and == compares the identities only. -/
def task_obj_eq (a b : Nat × Task) : Bool :=
  decide (a.1 = b.1)

/-! ## BlockingApps/taskParser.py : recurrence expansion

The external pieces are abstracted as parameters: gen r dtstart is the
occurrence stream of dateutil's rrulestr(r, dtstart=dtstart) and valid r
says whether rrulestr accepts the rule string r (when it does not, the
constructor raises; the source does not catch that exception). -/

/-- Mirror of datetime.weekday() under the minutes-since-a-Monday-00:00
encoding of instants: Monday is 0, Sunday is 6.  Lean's Int / and % are
floor division and nonnegative remainder, exactly Python's. -/
def py_weekday (now : Int) : Int :=
  (now / 1440) % 7

/-- Mirror of _get_this_weeks_sunday in Parser.get_tasks:
datetime.now() + timedelta(days=(6 - weekday) % 7 + 7). -/
def get_this_weeks_sunday (now : Int) : Int :=
  now + ((6 - py_weekday now) % 7 + 7) * 1440

/-- Modelled from the spec: the claim's horizon policy, "the end of the
current calendar week" -- the next occurring Sunday (today when today is a
Sunday) at end of day, 23:59.  This is the definition the code's
get_this_weeks_sunday is compared against; it is not in the source. -/
def spec_end_of_week (now : Int) : Int :=
  (now / 1440 + (6 - py_weekday now) % 7) * 1440 + 1439

/-- Mirror of the Task_Args TypedDict produced by _container_to_task_args
(the ics container parsing itself is external input handling and is not
modelled; expansion starts from these records). -/
structure Task_Args where
  title : String
  start_time : Int
  end_time : Int
  description : String
  repetition : Option String
deriving DecidableEq

/-- Error raised for a recurrence rule string the rrule constructor rejects
(the spec's RecurrenceError); the source propagates it uncaught. -/
structure RecurrenceError where
  rule : String
deriving DecidableEq

/-- Model of rule.between(lo, hi, inc=True): the generated instants lying in
the closed interval from lo to hi, both endpoints included. -/
def rule_between (gen : String → Int → List Int) (r : String)
    (dtstart lo hi : Int) : List Int :=
  (gen r dtstart).filter fun t => decide (lo ≤ t) && decide (t ≤ hi)

/-- Mirror of the per-template part of Parser.get_tasks: no repetition gives
the single verbatim task; a repetition rule is given to rrulestr (a rejected
rule raises) and every occurrence between start_time and the horizon, both
included, yields a task starting at the occurrence and ending after the
template's own duration.  (The source's task_args.get("end_time", start_time)
default is dead: Task_Args construction already failed if end_time was
absent.) -/
def expand_template (getText : String → String) (valid : String → Bool)
    (gen : String → Int → List Int) (horizon : Int) (a : Task_Args) :
    Except RecurrenceError (List Task) :=
  match a.repetition with
  | none =>
    .ok [mk_task getText a.title a.start_time a.end_time a.description none]
  | some r =>
    if valid r then
      .ok ((rule_between gen r a.start_time a.start_time horizon).map fun occ =>
        mk_task getText a.title occ (occ + (a.end_time - a.start_time))
          a.description (some r))
    else
      .error ⟨r⟩

/-- Mirror of the task-building loop of Parser.get_tasks over the extracted
argument records: templates are expanded in order and concatenated; an
exception aborts the whole call (nothing catches it). -/
def get_tasks (getText : String → String) (valid : String → Bool)
    (gen : String → Int → List Int) (now : Int) :
    List Task_Args → Except RecurrenceError (List Task)
  | [] => .ok []
  | a :: rest => do
    let ts ← expand_template getText valid gen (get_this_weeks_sunday now) a
    let more ← get_tasks getText valid gen now rest
    pure (ts ++ more)

/-! ## Helper lemmas -/

/-- Decidable equality on Except values, so that concrete expansion results
can be checked by evaluation. -/
instance exceptDecEq {ε α : Type} [DecidableEq ε] [DecidableEq α] :
    DecidableEq (Except ε α) := fun a b =>
  match a, b with
  | .ok x, .ok y =>
    if h : x = y then .isTrue (by rw [h]) else .isFalse (fun hc => by cases hc; exact h rfl)
  | .error x, .error y =>
    if h : x = y then .isTrue (by rw [h]) else .isFalse (fun hc => by cases hc; exact h rfl)
  | .ok _, .error _ => .isFalse (fun hc => by cases hc)
  | .error _, .ok _ => .isFalse (fun hc => by cases hc)

/-- Python slice s[a:b] is empty whenever the normalised lower bound is at or
beyond the normalised upper bound. -/
lemma pySlice_eq_nil (s : List Char) (a b : Int)
    (h : pySliceIdx s.length b ≤ pySliceIdx s.length a) : pySlice s a b = [] := by
  unfold pySlice
  rw [List.drop_eq_nil_iff]
  have := List.length_take (pySliceIdx s.length b) s
  omega

/-- Finding an element in a list returned by findIdx? lands on an index whose
element satisfies the predicate. -/
lemma findIdx?_sound {α : Type} (p : α → Bool) (l : List α) (i : Nat)
    (h : l.findIdx? p = some i) : ∃ a, l[i]? = some a ∧ p a = true := by
  have h2 := List.findIdx?_of_eq_some h
  cases hget : l[i]? with
  | none => rw [hget] at h2; exact absurd h2 (by simp)
  | some a => rw [hget] at h2; exact ⟨a, rfl, h2⟩

/-! ## Claim C2 -/

/-- Claim C2: an occurrence is returned by the active-task lookup only if both
its apps list and its websites list are non-empty (logical AND): a task whose
directive has an empty apps list or an empty websites list is never returned,
for every instant; and a task that is active with both lists non-empty is
eligible (returned when it heads the registry). -/
theorem claim_C2 :
    (∀ (now : Int) (tasks : List Task) (i : Nat) (t : Task),
      tasks[i]? = some t →
      t.blocking_info.block_apps = [] ∨ t.blocking_info.block_websites = [] →
      get_active_task now tasks ≠ some i) ∧
    (∀ (now : Int) (t : Task) (l : List Task),
      t.is_active now = true → t.does_block_anything = true →
      get_active_task now (t :: l) = some 0) := by
  constructor
  · intro now tasks i t hget hempty hact
    obtain ⟨a, hga, hpa⟩ := findIdx?_sound _ _ _ hact
    rw [hget] at hga
    cases hga
    simp only [Bool.and_eq_true, Task.does_block_anything, decide_eq_true_eq] at hpa
    rcases hempty with h | h
    · exact hpa.2.1 h
    · exact hpa.2.2 h
  · intro now t l h1 h2
    simp [get_active_task, List.findIdx?_cons, h1, h2]

/-- Witness for claim C2 at concrete inputs: a task with an empty apps list is
never returned even while its window is open, and a task with both lists
non-empty is returned. -/
def tEmptyApps : Task := ⟨"onlyweb", 0, 100, "", none, ⟨[], ["x.com"]⟩⟩

/-- Concrete task blocking both an app and a website. -/
def tBoth : Task := ⟨"both", 0, 100, "", none, ⟨["slack"], ["x.com"]⟩⟩

/-- Closed instance of claim C2. -/
theorem claim_C2_witness :
    get_active_task 5 [tEmptyApps] ≠ some 0 ∧
    get_active_task 5 (tBoth :: []) = some 0 :=
  ⟨claim_C2.1 5 [tEmptyApps] 0 tEmptyApps (by decide) (Or.inl rfl),
    claim_C2.2 5 tBoth [] (by decide) (by decide)⟩

/-! ## Claim C10 -/

/-- Description whose apps key has an empty value before its semicolon. -/
def descC10a : String := "##blocking block_apps:; block_websites: x.com; ##blocking"

/-- Description whose apps key has a whitespace-only value before its
semicolon (the claim's example shape). -/
def descC10b : String := "##blocking block_apps: ; block_websites: x.com; ##blocking"

/-- Claim C10: a well-formed blocking block whose apps key has an empty or
whitespace-only value yields a one-element list containing the empty string,
not an empty list, so the occurrence still satisfies the both-lists-non-empty
eligibility predicate and is found by the active-task lookup. -/
theorem claim_C10 :
    extract_blocking_info id descC10a = ⟨[""], ["x.com"]⟩ ∧
    extract_blocking_info id descC10b = ⟨[""], ["x.com"]⟩ ∧
    (mk_task id "t" 0 100 descC10a none).does_block_anything = true ∧
    (mk_task id "t" 0 100 descC10b none).does_block_anything = true ∧
    get_active_task 50 [mk_task id "t" 0 100 descC10b none] = some 0 := by
  decide

/-! ## Claim C5 -/

/-- Description containing exactly one occurrence of the marker token,
followed by a well-formed directive (and one trailing character that the
slice to index -1 cuts off). -/
def descOneMarker : String := "x ##blocking block_apps: a; block_websites: b; y"

/-- Description containing no marker at all. -/
def descNoMarker : String := "no markers here"

/-- Description with two markers and an empty block between them. -/
def descEmptyBlock : String := "##blocking ##blocking"

/-- Counterexample to claim C5 as stated: this description contains exactly
one occurrence of the marker token (first find hits index 2, the find for a
second occurrence starting right after returns -1), yet extraction returns a
non-empty directive, because Python's slice desc[2:-1] interprets the -1 of
the failed find as the index of the last character. -/
theorem claim_C5_counterexample :
    pyFind (pyLower (clean_description id descOneMarker)) markerTok 0 = 2 ∧
    pyFind (pyLower (clean_description id descOneMarker)) markerTok (2 + 1) = -1 ∧
    extract_blocking_info id descOneMarker = ⟨["a"], ["b"]⟩ ∧
    extract_blocking_info id descOneMarker ≠ emptyInfo := by
  decide

/-- Claim C5 as amended: extraction never raises (the try-block is modelled
as an Option and the bare except maps a failure to the empty directive); a
description whose cleaned lowercased text contains no marker occurrence at
all yields the empty directive, and whenever the try-block fails (the
delimited block is empty after stripping, the only raise in it) the result is
the empty directive.  With exactly one marker followed by content, however,
extraction proceeds on the text from the marker to the second-to-last
character instead of returning the empty directive. -/
theorem claim_C5 :
    (∀ (getText : String → String) (desc : String),
      pyFind (pyLower (clean_description getText desc)) markerTok 0 = -1 →
      extract_blocking_info getText desc = emptyInfo) ∧
    (∀ (getText : String → String) (desc : String),
      extract_body (pyLower (clean_description getText desc)) = none →
      extract_blocking_info getText desc = emptyInfo) := by
  constructor
  · intro getText desc h
    have h2 : pyFind (pyLower (clean_description getText desc)) markerTok
        (pyFind (pyLower (clean_description getText desc)) markerTok 0 + 1) = -1 := by
      rw [h]
      norm_num [h]
    have hbody : extract_body (pyLower (clean_description getText desc)) = none := by
      simp only [extract_body]
      rw [h2, h]
      rw [pySlice_eq_nil _ (-1) (-1) (le_refl _)]
      decide
    unfold extract_blocking_info
    rw [hbody]
  · intro getText desc hbody
    unfold extract_blocking_info
    rw [hbody]

/-- Closed instance of claim C5 (amended): a marker-free description and an
empty-block description both give the empty directive. -/
theorem claim_C5_witness :
    extract_blocking_info id descNoMarker = emptyInfo ∧
    extract_blocking_info id descEmptyBlock = emptyInfo :=
  ⟨claim_C5.1 id descNoMarker (by decide), claim_C5.2 id descEmptyBlock (by decide)⟩

/-! ## Claim C6 -/

/-- Well-formed block with the apps key first. -/
def descAppsFirst : String := "##blocking block_apps: slack; block_websites: x.com; ##blocking"

/-- The same directive with the websites key first. -/
def descWebsFirst : String := "##blocking block_websites: x.com; block_apps: slack; ##blocking"

/-- Counterexample to claim C6 as stated: the two orders of the same two
well-formed key/value pairs do not give the same apps list -- apps key first
gives ["slack"], websites key first gives [""] -- because the apps slice ends
at the first semicolon of the whole block, not at the first semicolon after
the apps key. -/
theorem claim_C6_counterexample :
    extract_blocking_info id descAppsFirst = ⟨["slack"], ["x.com"]⟩ ∧
    extract_blocking_info id descWebsFirst = ⟨[""], ["x.com"]⟩ ∧
    (extract_blocking_info id descAppsFirst).block_apps ≠
      (extract_blocking_info id descWebsFirst).block_apps := by
  decide

/-- Claim C6 as amended: the websites value is the text from the websites key
to the next semicolon at or after that key, split on commas and trimmed,
independent of where the key stands; the apps value however is sliced from
the apps key to the FIRST semicolon of the whole block, so whenever some
semicolon precedes the apps key (e.g. the websites pair stands first) the
apps list degrades to [""]; the two key orders agree only when the apps key
precedes the first semicolon. -/
theorem claim_C6 :
    (∀ (imp : List Char) (ps pa : Int),
      pyFind imp [';'] 0 = ps → pyFind imp appsKey 0 = pa →
      0 ≤ ps → ps ≤ pa → apps_of imp = [""]) ∧
    extract_blocking_info id descAppsFirst = ⟨["slack"], ["x.com"]⟩ ∧
    extract_blocking_info id descWebsFirst = ⟨[""], ["x.com"]⟩ := by
  refine ⟨?_, by decide, by decide⟩
  intro imp ps pa hps hpa h0 hle
  unfold apps_of
  rw [hps, hpa]
  have hsl : pySlice imp pa ps = [] := by
    apply pySlice_eq_nil
    unfold pySliceIdx
    rw [if_neg (by omega), if_neg (by omega)]
    omega
  unfold extract_field
  rw [hsl]
  decide

/-- Concrete blocking section with the websites pair first, as cleaned and
lowercased by extraction. -/
def impC6 : List Char := "block_websites: x.com; block_apps: slack;".data

/-- Closed instance of claim C6 (amended): on a block whose first semicolon
(index 21) precedes the apps key (index 23) the apps list is [""]. -/
theorem claim_C6_witness : apps_of impC6 = [""] :=
  claim_C6.1 impC6 21 23 (by decide) (by decide) (by decide) (by decide)

/-! ## Claim C3 -/

/-- Start instant of a constructed task. -/
lemma mk_task_start (gT : String → String) (ti : String) (s e : Int)
    (d : String) (rep : Option String) : (mk_task gT ti s e d rep).start_time = s := rfl

/-- End instant of a constructed task. -/
lemma mk_task_end (gT : String → String) (ti : String) (s e : Int)
    (d : String) (rep : Option String) : (mk_task gT ti s e d rep).end_time = e := rfl

/-- Title of a constructed task. -/
lemma mk_task_title (gT : String → String) (ti : String) (s e : Int)
    (d : String) (rep : Option String) : (mk_task gT ti s e d rep).title = ti := rfl

/-- Directive of a constructed task: extracted from its description.  (The
proof keeps the extracted directive abstract so that definitional unification
never evaluates the extraction pipeline symbolically.) -/
lemma mk_task_info (gT : String → String) (ti : String) (s e : Int)
    (d : String) (rep : Option String) :
    (mk_task gT ti s e d rep).blocking_info = extract_blocking_info gT d := by
  have g : ∀ i : Blocked_Info, (Task.mk ti s e d rep i).blocking_info = i :=
    fun _ => rfl
  exact g (extract_blocking_info gT d)

/-- Claim C3: for a template with a recurrence rule (accepted by the rule
constructor), expansion yields exactly one occurrence per rule-generated
start instant in the closed interval from the template's start to the
horizon -- the list of the occurrences' starts IS that instant list -- and
every occurrence keeps the template's duration (end = start + (template.end -
template.start)), title, and the directive extracted from the template's
description; the interval includes both endpoints. -/
theorem claim_C3 (getText : String → String) (valid : String → Bool)
    (gen : String → Int → List Int) (horizon : Int) (a : Task_Args)
    (r : String) (ts : List Task)
    (hr : a.repetition = some r) (hv : valid r = true)
    (hex : expand_template getText valid gen horizon a = .ok ts) :
    ts.map Task.start_time = rule_between gen r a.start_time a.start_time horizon ∧
    (∀ t ∈ ts, t.title = a.title ∧
      t.end_time = t.start_time + (a.end_time - a.start_time) ∧
      t.blocking_info = extract_blocking_info getText a.description) ∧
    (∀ x : Int, x ∈ rule_between gen r a.start_time a.start_time horizon ↔
      x ∈ gen r a.start_time ∧ a.start_time ≤ x ∧ x ≤ horizon) := by
  unfold expand_template at hex
  rw [hr] at hex
  simp only [hv, if_true, Except.ok.injEq] at hex
  subst hex
  refine ⟨?_, ?_, ?_⟩
  · rw [List.map_map]
    simp only [Function.comp_def, mk_task_start]
    exact List.map_id' (rule_between gen r a.start_time a.start_time horizon)
  · intro t ht
    obtain ⟨occ, _, rfl⟩ := List.mem_map.mp ht
    rw [mk_task_title, mk_task_end, mk_task_start, mk_task_info]
    exact ⟨rfl, rfl, rfl⟩
  · intro x
    simp [rule_between, List.mem_filter]

/-- Weekly generator used to instantiate claim C3 (occurrences 7 days =
10080 minutes apart, mirroring the spec's weekly example). -/
def genW : String → Int → List Int := fun _ dtstart =>
  [dtstart, dtstart + 10080, dtstart + 20160]

/-- Rule validator accepting everything, for the witnesses. -/
def validAll : String → Bool := fun _ => true

/-- Template for the witnesses: Monday 09:00 to 10:00 with a weekly rule. -/
def aWeekly : Task_Args := ⟨"Focus", 540, 600, "", some "FREQ=WEEKLY"⟩

/-- Expected expansion of aWeekly up to a horizon that lies past the second
occurrence and before the third. -/
def tsWeekly : List Task :=
  [mk_task id "Focus" 540 (540 + (600 - 540)) "" (some "FREQ=WEEKLY"),
   mk_task id "Focus" 10620 (10620 + (600 - 540)) "" (some "FREQ=WEEKLY")]

/-- Closed instance of claim C3: the weekly template expands to occurrences
at 540 and 10620 (one hour each), and not past the horizon 10720. -/
theorem claim_C3_witness :
    tsWeekly.map Task.start_time = rule_between genW "FREQ=WEEKLY" 540 540 10720 :=
  (claim_C3 id validAll genW 10720 aWeekly "FREQ=WEEKLY" tsWeekly rfl rfl (by decide)).1

/-! ## Claim C4 -/

/-- Propagation of a rejected rule out of the whole task-building loop:
whenever some template of the batch carries a rule the constructor rejects,
get_tasks fails with an error (nothing silently drops the template). -/
lemma get_tasks_error_of_bad (getText : String → String) (valid : String → Bool)
    (gen : String → Int → List Int) (now : Int) :
    ∀ (args : List Task_Args),
      (∃ a ∈ args, ∃ r, a.repetition = some r ∧ valid r = false) →
      ∃ e, get_tasks getText valid gen now args = .error e := by
  intro args
  induction args with
  | nil => rintro ⟨a, ha, _⟩; exact absurd ha (by simp)
  | cons b rest ih =>
    rintro ⟨a, ha, r, hrep, hinval⟩
    cases hexp : expand_template getText valid gen (get_this_weeks_sunday now) b with
    | error e =>
      refine ⟨e, ?_⟩
      simp only [get_tasks, hexp]
      rfl
    | ok ts =>
      rcases List.mem_cons.mp ha with rfl | hmem
      · exfalso
        unfold expand_template at hexp
        rw [hrep] at hexp
        simp [hinval] at hexp
      · obtain ⟨e, he⟩ := ih ⟨a, hmem, r, hrep, hinval⟩
        refine ⟨e, ?_⟩
        simp only [get_tasks, hexp, he]
        rfl

/-- Claim C4: a template whose recurrence rule the rule constructor rejects
makes expansion fail with a RecurrenceError carrying that rule (and the error
propagates out of the whole get_tasks call, for any batch containing the
template: it is not silently dropped), while a template with no recurrence
rule yields exactly one occurrence with the template's title, start and end
verbatim. -/
theorem claim_C4 :
    (∀ (getText : String → String) (valid : String → Bool)
      (gen : String → Int → List Int) (horizon : Int) (a : Task_Args) (r : String),
      a.repetition = some r → valid r = false →
      expand_template getText valid gen horizon a = .error ⟨r⟩) ∧
    (∀ (getText : String → String) (valid : String → Bool)
      (gen : String → Int → List Int) (horizon : Int) (a : Task_Args),
      a.repetition = none →
      expand_template getText valid gen horizon a =
        .ok [mk_task getText a.title a.start_time a.end_time a.description none]) ∧
    (∀ (getText : String → String) (valid : String → Bool)
      (gen : String → Int → List Int) (now : Int) (args : List Task_Args)
      (a : Task_Args) (r : String),
      a ∈ args → a.repetition = some r → valid r = false →
      ∃ e, get_tasks getText valid gen now args = .error e) := by
  refine ⟨?_, ?_, ?_⟩
  · intro getText valid gen horizon a r hr hv
    unfold expand_template
    rw [hr]
    simp [hv]
  · intro getText valid gen horizon a hr
    unfold expand_template
    rw [hr]
  · intro getText valid gen now args a r ha hr hv
    exact get_tasks_error_of_bad getText valid gen now args ⟨a, ha, r, hr, hv⟩

/-- Rule validator rejecting everything, for the C4 witness. -/
def validNone : String → Bool := fun _ => false

/-- Template with a malformed rule, for the C4 witness. -/
def aBadRule : Task_Args := ⟨"Bad", 540, 600, "", some "FREQ=NONSENSE"⟩

/-- Template with no recurrence rule, for the C4 witness. -/
def aSingle : Task_Args := ⟨"Once", 540, 600, "", none⟩

/-- Closed instance of claim C4: the rejected rule yields the error (also
through get_tasks) and the rule-free template expands to its single verbatim
occurrence. -/
theorem claim_C4_witness :
    expand_template id validNone genW 10720 aBadRule = .error ⟨"FREQ=NONSENSE"⟩ ∧
    expand_template id validNone genW 10720 aSingle =
      .ok [mk_task id "Once" 540 600 "" none] ∧
    ∃ e, get_tasks id validNone genW 600 [aSingle, aBadRule] = .error e :=
  ⟨claim_C4.1 id validNone genW 10720 aBadRule "FREQ=NONSENSE" rfl rfl,
   claim_C4.2.1 id validNone genW 10720 aSingle rfl,
   claim_C4.2.2 id validNone genW 600 [aSingle, aBadRule] aBadRule "FREQ=NONSENSE"
     (by simp) rfl rfl⟩

/-! ## Claim C7 -/

/-- Counterexample to claim C7 as stated: at now = 600 (a Monday, 10:00),
the code's horizon is 19320 -- the Sunday of the FOLLOWING week at 10:00 --
while the spec's end of the current calendar week (next occurring Sunday at
end-of-day) is 10079 (day 6, 23:59). -/
theorem claim_C7_counterexample :
    get_this_weeks_sunday 600 = 19320 ∧
    spec_end_of_week 600 = 10079 ∧
    get_this_weeks_sunday 600 ≠ spec_end_of_week 600 := by
  decide

/-- Claim C7 as amended: the horizon is computed fresh from the current
instant as now + ((6 - weekday(now)) mod 7 + 7) days = now + (13 -
weekday(now)) days: it does fall on a Sunday, but on the Sunday of the week
AFTER the current one (7 to 13 days ahead), at the current time of day --
always strictly later than the spec's this-week's-Sunday at end-of-day. -/
theorem claim_C7 (now : Int) :
    get_this_weeks_sunday now = now + (13 - py_weekday now) * 1440 ∧
    py_weekday (get_this_weeks_sunday now) = 6 ∧
    spec_end_of_week now < get_this_weeks_sunday now := by
  unfold get_this_weeks_sunday spec_end_of_week py_weekday
  omega

/-! ## Scheduler-loop lemmas -/

/-- Transition behaviour of one iteration: when the lookup returns an
occurrence other than the tracked one, the iteration emits exactly the two
block commands for the new occurrence and tracks it; no unblock is issued. -/
lemma tick_transition (tasks : List Task) (current : Option Nat) (now : Int)
    (j : Nat) (tj : Task) (hact : get_active_task now tasks = some j)
    (hne : current ≠ some j) (ht : tasks[j]? = some tj) :
    tick tasks current now =
      ([Ev.blockApps tj.blocking_info.block_apps,
        Ev.blockWebsites tj.blocking_info.block_websites], some j) := by
  have hne' : some j ≠ current := fun h => hne h.symm
  simp [tick, hact, hne', List.getD_eq_getElem?_getD, ht]

/-- The tracked index stays within the registry. -/
lemma tick_current_lt (tasks : List Task) (current : Option Nat) (now : Int)
    (hc : ∀ j, current = some j → j < tasks.length) :
    ∀ j, (tick tasks current now).2 = some j → j < tasks.length := by
  intro j hj
  have hfind : ∀ i, get_active_task now tasks = some i → i < tasks.length := by
    intro i hi
    unfold get_active_task at hi
    obtain ⟨hlt, -⟩ := List.findIdx?_eq_some_iff_getElem.mp hi
    exact hlt
  cases current with
  | none =>
    simp only [tick] at hj
    by_cases hcond : ((get_active_task now tasks).isSome &&
        decide (get_active_task now tasks ≠ (none : Option Nat))) = true
    · rw [if_pos hcond] at hj
      simp only at hj
      exact hfind j hj
    · rw [if_neg hcond] at hj
      simp at hj
  | some k =>
    simp only [tick] at hj
    by_cases hcond : ((get_active_task now tasks).isSome &&
        decide (get_active_task now tasks ≠ some k)) = true
    · rw [if_pos hcond] at hj
      simp only at hj
      exact hfind j hj
    · rw [if_neg hcond] at hj
      by_cases hact : (tasks.getD k defaultTask).is_active now = true
      · rw [if_pos hact] at hj
        simp only [Option.some.injEq] at hj
        exact hj ▸ hc k rfl
      · rw [if_neg hact] at hj
        simp at hj

/-- An unblock command emitted inside the loop body comes from the branch
that drops an expired tracked occurrence: its argument is the websites list
of a registry task that is not active at that instant. -/
lemma tick_unblock_mem (tasks : List Task) (current : Option Nat) (now : Int)
    (w : List String) (hc : ∀ j, current = some j → j < tasks.length)
    (hw : Ev.unblockWebsites w ∈ (tick tasks current now).1) :
    ∃ (j : Nat) (t : Task), tasks[j]? = some t ∧
      w = t.blocking_info.block_websites ∧ t.is_active now = false := by
  cases current with
  | none =>
    simp only [tick] at hw
    by_cases hcond : ((get_active_task now tasks).isSome &&
        decide (get_active_task now tasks ≠ (none : Option Nat))) = true
    · rw [if_pos hcond] at hw
      simp at hw
    · rw [if_neg hcond] at hw
      simp at hw
  | some j =>
    simp only [tick] at hw
    by_cases hcond : ((get_active_task now tasks).isSome &&
        decide (get_active_task now tasks ≠ some j)) = true
    · rw [if_pos hcond] at hw
      simp at hw
    · rw [if_neg hcond] at hw
      have hj : j < tasks.length := hc j rfl
      have hgd : tasks.getD j defaultTask = tasks[j] := by
        rw [List.getD_eq_getElem?_getD, List.getElem?_eq_getElem hj]
        rfl
      rw [hgd] at hw
      by_cases hact : tasks[j].is_active now = true
      · rw [if_pos hact] at hw
        simp at hw
      · rw [if_neg hact] at hw
        simp at hw
        exact ⟨j, tasks[j], List.getElem?_eq_getElem hj, hw,
          by simpa using hact⟩

/-- Every unblock command emitted during the loop (started, as in main, with
no tracked occurrence) belongs to a registry task that was inactive at one of
the polled instants: the loop never unblocks at a transition to a new active
occurrence, only when dropping an expired tracked one. -/
lemma run_loop_unblock_mem (tasks : List Task) :
    ∀ (ticks : List Tick_In) (current : Option Nat),
      (∀ j, current = some j → j < tasks.length) →
      ∀ w, Ev.unblockWebsites w ∈ (run_loop tasks current ticks).1 →
      ∃ (j : Nat) (t : Task), tasks[j]? = some t ∧
        w = t.blocking_info.block_websites ∧
        ∃ ti, ti ∈ ticks ∧ t.is_active ti.now = false := by
  intro ticks
  induction ticks with
  | nil =>
    intro current hc w hw
    simp [run_loop] at hw
  | cons ti rest ih =>
    intro current hc w hw
    simp only [run_loop] at hw
    cases hf : ti.fault with
    | none =>
      rw [hf] at hw
      simp only at hw
      rcases List.mem_append.mp hw with h | h
      · obtain ⟨j, t, h1, h2, h3⟩ := tick_unblock_mem tasks current ti.now w hc h
        exact ⟨j, t, h1, h2, ti, List.mem_cons_self ti rest, h3⟩
      · obtain ⟨j, t, h1, h2, ti2, hti2, h3⟩ :=
          ih (tick tasks current ti.now).2 (tick_current_lt tasks current ti.now hc) w h
        exact ⟨j, t, h1, h2, ti2, List.mem_cons_of_mem ti hti2, h3⟩
    | some f =>
      rw [hf] at hw
      simp only at hw
      obtain ⟨j, t, h1, h2, h3⟩ :=
        tick_unblock_mem tasks current ti.now w hc (List.mem_of_mem_take hw)
      exact ⟨j, t, h1, h2, ti, List.mem_cons_self ti rest, h3⟩

/-! ## Claim C9 -/

/-- Occurrence with the later, shorter window; it heads the registry. -/
def taskB : Task := ⟨"B", 20, 30, "", none, ⟨["bapp"], ["b.com"]⟩⟩

/-- Occurrence with the long window overlapping taskB's. -/
def taskA : Task := ⟨"A", 0, 100, "", none, ⟨["aapp"], ["a.com"]⟩⟩

/-- Registry for the C9 run: B first, A second. -/
def regC9 : List Task := [taskB, taskA]

/-- Poll instants for the C9 run: A alone active, then B (transition away
from A), then A again, then neither. -/
def ticksC9 : List Tick_In := [⟨5, none⟩, ⟨25, none⟩, ⟨35, none⟩, ⟨105, none⟩]

/-- Counterexample to claim C9 as stated: in this run the tick at instant 25
performs the A-to-B transition (with both occurrences non-null and their
windows overlapping) and, as the claim says, issues the two block commands
for B without unblocking A; but A's websites ARE later unblocked inside the
loop (the seventh command, issued at instant 105 when A has expired while
tracked), not only by the loop-exit cleanup. -/
theorem claim_C9_counterexample :
    (run_loop regC9 none ticksC9).1 =
      [Ev.blockApps ["aapp"], Ev.blockWebsites ["a.com"],
       Ev.blockApps ["bapp"], Ev.blockWebsites ["b.com"],
       Ev.blockApps ["aapp"], Ev.blockWebsites ["a.com"],
       Ev.unblockWebsites ["a.com"]] ∧
    Ev.unblockWebsites ["a.com"] ∈ (run_loop regC9 none ticksC9).1 := by
  decide

/-- Claim C9 as amended: when a tick finds an active occurrence distinct from
the tracked one, the iteration emits exactly block_apps then block_websites
for the new occurrence and tracks it, issuing no unblock at that tick; the
websites of the previously tracked occurrence are unblocked during the loop
only by a later tick that drops it (or another registry occurrence) as
expired -- any in-loop unblock belongs to a registry occurrence inactive at
one of the polled instants -- or else by the loop-exit cleanup. -/
theorem claim_C9 :
    (∀ (tasks : List Task) (current : Option Nat) (now : Int) (i j : Nat)
      (tj : Task),
      current = some i → get_active_task now tasks = some j → j ≠ i →
      tasks[j]? = some tj →
      tick tasks current now =
        ([Ev.blockApps tj.blocking_info.block_apps,
          Ev.blockWebsites tj.blocking_info.block_websites], some j)) ∧
    (∀ (tasks : List Task) (ticks : List Tick_In) (w : List String),
      Ev.unblockWebsites w ∈ (run_loop tasks none ticks).1 →
      ∃ (j : Nat) (t : Task), tasks[j]? = some t ∧
        w = t.blocking_info.block_websites ∧
        ∃ ti, ti ∈ ticks ∧ t.is_active ti.now = false) := by
  constructor
  · intro tasks current now i j tj hcur hact hne ht
    refine tick_transition tasks current now j tj hact ?_ ht
    rw [hcur]
    intro h
    exact hne (Option.some.inj h).symm
  · intro tasks ticks w hw
    exact run_loop_unblock_mem tasks ticks none (fun j h => by cases h) w hw

/-- Closed instance of claim C9 (amended): the transition tick of the C9 run
emits exactly the two block commands for B and tracks B. -/
theorem claim_C9_witness :
    tick regC9 (some 1) 25 =
      ([Ev.blockApps ["bapp"], Ev.blockWebsites ["b.com"]], some 0) :=
  claim_C9.1 regC9 (some 1) 25 1 0 taskB rfl (by decide) (by decide) (by decide)

/-! ## Claim C8 -/

/-- A fixed occurrence record, used as the fields of two distinct objects. -/
def t8 : Task := ⟨"same", 10, 20, "", none, ⟨["a"], ["w"]⟩⟩

/-- Counterexample to claim C8 as stated: two distinct Task objects (object
identities 0 and 1) with identical fields -- in particular the same title and
the same start -- are NOT equal for Python's comparison, since Task defines
no custom equality and == falls back to object identity; so equality does not
hold iff title and start agree. -/
theorem claim_C8_counterexample :
    task_obj_eq (0, t8) (1, t8) = false ∧
    (0, t8).2.title = (1, t8).2.title ∧
    (0, t8).2.start_time = (1, t8).2.start_time ∧
    ¬ (task_obj_eq (0, t8) (1, t8) = true ↔
        ((0, t8).2.title = (1, t8).2.title ∧
          (0, t8).2.start_time = (1, t8).2.start_time)) := by
  decide

/-- Claim C8 as amended: for the scheduler's comparison two occurrences are
equal iff they are the same object (Python default identity equality; Task
defines no custom equality and no dedup exists), title and start playing no
role: the loop's active-versus-tracked test treats two distinct registry
objects with identical title and start as different and re-fires the
transition. -/
theorem claim_C8 :
    (∀ a b : Nat × Task, task_obj_eq a b = true ↔ a.1 = b.1) ∧
    (∀ (tasks : List Task) (now : Int) (i j : Nat) (ti tj : Task),
      get_active_task now tasks = some j → j ≠ i →
      tasks[i]? = some ti → tasks[j]? = some tj →
      ti.title = tj.title → ti.start_time = tj.start_time →
      tick tasks (some i) now =
        ([Ev.blockApps tj.blocking_info.block_apps,
          Ev.blockWebsites tj.blocking_info.block_websites], some j)) := by
  constructor
  · intro a b
    simp [task_obj_eq]
  · intro tasks now i j ti tj hact hne hti htj htitle hstart
    refine tick_transition tasks (some i) now j tj hact ?_ htj
    intro h
    exact hne (Option.some.inj h).symm

/-- Ineligible occurrence (empty apps list) sharing title and start with the
eligible one below. -/
def t8a : Task := ⟨"same", 0, 100, "", none, ⟨[], ["w.com"]⟩⟩

/-- Eligible occurrence with the same title and start as t8a. -/
def t8b : Task := ⟨"same", 0, 100, "", none, ⟨["ap"], ["w.com"]⟩⟩

/-- Closed instance of claim C8 (amended): an object equals itself, and the
loop re-fires the transition from tracked index 0 to active index 1 although
the two occurrences carry the same title and the same start. -/
theorem claim_C8_witness :
    task_obj_eq (3, t8) (3, t8) = true ∧
    tick [t8a, t8b] (some 0) 5 =
      ([Ev.blockApps ["ap"], Ev.blockWebsites ["w.com"]], some 1) :=
  ⟨(claim_C8.1 (3, t8) (3, t8)).mpr rfl,
   claim_C8.2 [t8a, t8b] 5 0 1 t8a t8b (by decide) (by decide)
     (by decide) (by decide) rfl rfl⟩

/-! ## Claim C1 -/

/-- Occurrence that becomes active during the C1 runs. -/
def tC1 : Task := ⟨"t", 0, 100, "", none, ⟨["app"], ["site.com"]⟩⟩

/-- Occurrence whose window is never reached in the C1 runs. -/
def tC1never : Task := ⟨"never", 200, 300, "", none, ⟨["x"], ["never.com"]⟩⟩

/-- Registry for the C1 runs: one task that activates, one that never does. -/
def regC1 : List Task := [tC1, tC1never]

/-- Claim C1, evaluated at the failing input and at the two recoverable
exits.  The first two runs behave as the claim says: on the graceful exit and
on an exception that is an instance of Exception, the cleanup invokes
unblock_websites with the website list of every registry task exactly once,
including the never-activated one.  The third run is the failing input: the
same iteration raising an exception deriving only from BaseException
(KeyboardInterrupt, SystemExit) is not caught by the except Exception clause
of main, so NO unblock command is ever emitted -- the code contradicts the
claim (and its own cleanup comment) on that exit path. -/
theorem claim_C1 :
    main_trace regC1 [⟨50, none⟩] =
      [Ev.blockApps ["app"], Ev.blockWebsites ["site.com"],
       Ev.unblockWebsites ["site.com"], Ev.unblockWebsites ["never.com"]] ∧
    (main_trace regC1 [⟨50, none⟩]).count (Ev.unblockWebsites ["site.com"]) = 1 ∧
    (main_trace regC1 [⟨50, none⟩]).count (Ev.unblockWebsites ["never.com"]) = 1 ∧
    main_trace regC1 [⟨50, some (1, true)⟩] =
      [Ev.blockApps ["app"], Ev.unblockWebsites ["site.com"],
       Ev.unblockWebsites ["never.com"]] ∧
    (main_trace regC1 [⟨50, some (1, true)⟩]).count
      (Ev.unblockWebsites ["site.com"]) = 1 ∧
    (main_trace regC1 [⟨50, some (1, true)⟩]).count
      (Ev.unblockWebsites ["never.com"]) = 1 ∧
    main_trace regC1 [⟨50, some (1, false)⟩] = [Ev.blockApps ["app"]] ∧
    (main_trace regC1 [⟨50, some (1, false)⟩]).count
      (Ev.unblockWebsites ["site.com"]) = 0 ∧
    (main_trace regC1 [⟨50, some (1, false)⟩]).count
      (Ev.unblockWebsites ["never.com"]) = 0 := by
  decide

end WTB
